import Mathlib

/-!
Shallow embedding of `src/app.py` (faster-whisper-speech-to-text).

The program is a single-file interactive CLI around a speech model:
  * `WhisperSpeechToText.record_audio`   — records `int(duration * 16000)` mono samples,
  * `WhisperSpeechToText.save_audio`     — writes a buffer to a WAV file,
  * `WhisperSpeechToText.transcribe_audio` — transcribes a buffer or a file,
    catching every `Exception` and returning an error string instead,
  * `WhisperSpeechToText.start_continuous_recognition` — record/transcribe loop
    stopped by `KeyboardInterrupt`,
  * `main` — the menu loop.

External effects (the sounddevice microphone, `soundfile.write`, the Whisper
model, `tempfile.NamedTemporaryFile`, the filesystem, stdin/stdout) are
modelled by explicit environment records and state threading.  Exceptions
raised by library calls are modelled as `Except` values; the Python dictionary
values built and branched on by the source (`isinstance(result, dict)`) are
modelled by the `PyVal` inductive so that dictionary keys are observable data.
-/

namespace SpeechToText

/-- Source: `self.sample_rate = 16000  # Whisper expects 16kHz` -/
def sample_rate : ℕ := 16000

/-- Source: `self.channels = 1` -/
def channels : ℕ := 1

/-- A mono audio buffer: the numpy float array returned by `sd.rec`, with the
sample values left abstract (integers stand for arbitrary sample readings). -/
structure AudioBuffer where
  samples : List ℤ
deriving Repr, DecidableEq

/-- Python `int()` applied to a rational: truncation toward zero. -/
def pyInt (q : ℚ) : ℤ := if 0 ≤ q then ⌊q⌋ else ⌈q⌉

/-- Method `record_audio(self, duration)`:
`sd.rec(int(duration * self.sample_rate), samplerate=..., channels=1)` followed
by `sd.wait()`.  The microphone is modelled as a function `mic` from sample
index to sample value; the call returns exactly `int(duration * 16000)`
samples read from it. -/
def record_audio (mic : ℕ → ℤ) (duration : ℚ) : AudioBuffer :=
  ⟨(List.range (pyInt (duration * (sample_rate : ℚ))).toNat).map mic⟩

/-- A word object yielded by the model (`word.word`, `word.start`, `word.end`). -/
structure MWord where
  word : String
  start : ℚ
  «end» : ℚ
deriving Repr, DecidableEq

/-- A segment object yielded by the model
(`segment.text`, `segment.start`, `segment.end`, `segment.words`). -/
structure MSeg where
  text : String
  start : ℚ
  «end» : ℚ
  words : List MWord
deriving Repr, DecidableEq

/-- The `info` object returned by `model.transcribe`
(`info.language`, `info.language_probability`). -/
structure MInfo where
  language : String
  language_probability : ℚ
deriving Repr, DecidableEq

/-- The argument list of one `self.model.transcribe(...)` invocation. -/
structure TranscribeCall where
  audio : Option String
  language : Option String
  beam_size : ℕ
  vad_filter : Bool
  word_timestamps : Bool
deriving Repr, DecidableEq

/-- Python values as built and inspected by the source: the success result is a
`dict`, the error result a `str`, and `main` branches with
`isinstance(result, dict)`.  Keys of a `dict` are observable. -/
inductive PyVal where
  | str (s : String)
  | rat (q : ℚ)
  | list (xs : List PyVal)
  | dict (kvs : List (String × PyVal))

/-- The filesystem: the set of existing file paths, as a list. -/
structure FS where
  files : List String
deriving Repr, DecidableEq

/-- Environment of one pass through the library calls: the (fresh) name handed
out by `tempfile.NamedTemporaryFile(suffix=".wav", delete=False)`, the outcome
of `sf.write` per target path, the outcome of `self.model.transcribe` per
argument list, and the `datetime.now().strftime(...)` timestamp.  `Except`
errors model raised Python `Exception`s. -/
structure Env where
  tempName : String
  sfWrite : String → AudioBuffer → Except String Unit
  model : TranscribeCall → Except String (List MSeg × MInfo)
  timestamp : String

/-- Method `save_audio(self, audio_data, filename=None)`: default filename
`f"recording_{timestamp}.wav"`, then `sf.write(filename, audio_data,
self.sample_rate)`; returns the filename.  A raised write error propagates
(there is no handler in `save_audio`). -/
def save_audio (env : Env) (fs : FS) (audio_data : AudioBuffer)
    (filename : Option String) : Except String (FS × String) :=
  let fname :=
    match filename with
    | none => "recording_" ++ env.timestamp ++ ".wav"
    | some f => f
  match env.sfWrite fname audio_data with
  | .error e => .error e
  | .ok _ => .ok (⟨fs.files ++ [fname]⟩, fname)

/-- Source: `{'word': word.word, 'start': word.start, 'end': word.end}` -/
def wordDict (w : MWord) : PyVal :=
  .dict [("word", .str w.word), ("start", .rat w.start), ("end", .rat w.«end»)]

/-- Source: `{'text': ..., 'start': ..., 'end': ..., 'words': [...]}` -/
def segDict (s : MSeg) : PyVal :=
  .dict [("text", .str s.text), ("start", .rat s.start), ("end", .rat s.«end»),
         ("words", .list (s.words.map wordDict))]

/-- Source: `{'segments': transcription, 'detected_language': info.language,
'language_probability': info.language_probability}` -/
def successDict (segs : List MSeg) (info : MInfo) : PyVal :=
  .dict [("segments", .list (segs.map segDict)),
         ("detected_language", .str info.language),
         ("language_probability", .rat info.language_probability)]

/-- Source: `return f"Transcription error: {str(e)}"` -/
def errValue (e : String) : PyVal := .str ("Transcription error: " ++ e)

/-- Result of one `transcribe_audio` call: the filesystem afterwards, the
returned Python value, the temporary file created (if any), and the
`self.model.transcribe` invocations made. -/
structure TransOut where
  fs : FS
  ret : PyVal
  tempCreated : Option String
  calls : List TranscribeCall

/-- The part of `transcribe_audio` from `segments, info = self.model.transcribe(
audio_path, language=language, beam_size=5, vad_filter=True,
word_timestamps=True)` to the `return`, still inside the `try`: a raised model
error is caught by `except Exception as e` and stringified. -/
def runModel (env : Env) (fs : FS) (audio_path : Option String)
    (language : Option String) (tempCreated : Option String) : TransOut :=
  let call : TranscribeCall :=
    ⟨audio_path, language, 5, true, true⟩
  match env.model call with
  | .error e => ⟨fs, errValue e, tempCreated, [call]⟩
  | .ok (segs, info) => ⟨fs, successDict segs info, tempCreated, [call]⟩

/-- Method `transcribe_audio(self, audio_data=None, audio_file=None, language=None)`.
If `audio_data is not None`, a `NamedTemporaryFile(suffix=".wav",
delete=False)` is opened — which creates the file on disk — and
`save_audio(audio_data, temp_file.name)` writes to it; otherwise
`audio_path = audio_file`.  Everything happens inside `try: ... except
Exception as e: return f"Transcription error: {str(e)}"`. -/
def transcribe_audio (env : Env) (fs : FS) (audio_data : Option AudioBuffer)
    (audio_file : Option String) (language : Option String) : TransOut :=
  match audio_data with
  | some buf =>
    let tname := env.tempName
    let fs1 : FS := ⟨fs.files ++ [tname]⟩
    match save_audio env fs1 buf (some tname) with
    | .error e => ⟨fs1, errValue e, some tname, []⟩
    | .ok (fs2, _) => runModel env fs2 (some tname) language (some tname)
  | none => runModel env fs audio_file language none

/-- A Python exception escaping a frame: `KeyboardInterrupt` (a
`BaseException`, not caught by `except Exception`) or an ordinary
`Exception` with its message. -/
inductive PyExc where
  | keyboardInterrupt
  | err (msg : String)
deriving Repr, DecidableEq

/-- Console output, one constructor per `print` site of the source (the
numeric formatting of the f-strings is kept as the raw values printed). -/
inductive OutEvent where
  | recordingStart (duration : ℚ)
  | recordingDone
  | savedRecording (filename : String)
  | transcriptionHeader
  | segLine (start stop : ℚ) (text : String)
  | langLine (language : String) (probability : ℚ)
  | printedValue (v : PyVal)
  | fileNotFound
  | invalidChoice
  | exiting
  | continuousStart
  | continuousStop

/-- Lookup in a `PyVal.dict` association list. -/
def lookupKey : List (String × PyVal) → String → Option PyVal
  | [], _ => none
  | (k, v) :: rest, key => if k = key then some v else lookupKey rest key

/-- Indexing `result[key]` on a dictionary value (the source only indexes keys it just
put there, so the `none` case is never reached on its values). -/
def dGet (v : PyVal) (key : String) : Option PyVal :=
  match v with
  | .dict kvs => lookupKey kvs key
  | _ => none

def asRat (o : Option PyVal) : ℚ :=
  match o with
  | some (.rat q) => q
  | _ => 0

def asStr (o : Option PyVal) : String :=
  match o with
  | some (.str s) => s
  | _ => ""

def asList (o : Option PyVal) : List PyVal :=
  match o with
  | some (.list l) => l
  | _ => []

/-- Source: `for segment in result['segments']: print(f"[{...:.1f}s -> {...:.1f}s] {text}")` -/
def segLineEvents (result : PyVal) : List OutEvent :=
  (asList (dGet result "segments")).map fun s =>
    .segLine (asRat (dGet s "start")) (asRat (dGet s "end")) (asStr (dGet s "text"))

/-- The `if isinstance(result, dict): ... else: print(result)` block of menu
choices 1 and 2: header, segment lines, then the detected-language line. -/
def printResultFull (result : PyVal) : List OutEvent :=
  match result with
  | .dict kvs =>
    .transcriptionHeader :: segLineEvents (.dict kvs) ++
      [.langLine (asStr (dGet (.dict kvs) "detected_language"))
        (asRat (dGet (.dict kvs) "language_probability"))]
  | other => [.printedValue other]

/-- The `if isinstance(result, dict)` block inside
`start_continuous_recognition` (segment lines only, no language line). -/
def printResultCont (result : PyVal) : List OutEvent :=
  match result with
  | .dict kvs => segLineEvents (.dict kvs)
  | other => [.printedValue other]

/-- The body of the `while True:` loop in `start_continuous_recognition`,
inside the `try`.  `envs` is the per-iteration library environment; the
external `KeyboardInterrupt` arrives during the `record_audio` call of the
iteration after `envs` is exhausted.  Returns the filesystem, the printed
events, and the exception that ended the loop (always `KeyboardInterrupt`:
`transcribe_audio` swallows its own errors and recording is modelled pure). -/
def continuous_body (mic : ℕ → ℤ) (segment_duration : ℚ)
    (language : Option String) : List Env → FS → FS × List OutEvent × PyExc
  | [], fs => (fs, [.recordingStart segment_duration], .keyboardInterrupt)
  | e :: rest, fs =>
    let audio_data := record_audio mic segment_duration
    let out := transcribe_audio e fs (some audio_data) none language
    let evs := [.recordingStart segment_duration, .recordingDone] ++
      printResultCont out.ret
    let r := continuous_body mic segment_duration language rest out.fs
    (r.1, evs ++ r.2.1, r.2.2)

/-- Method `start_continuous_recognition(self, segment_duration=5, language=None)`:
the loop wrapped in `try: ... except KeyboardInterrupt: print(...)`.  Only
`KeyboardInterrupt` is caught; any other escaping exception would propagate
(`.error`). -/
def start_continuous_recognition (mic : ℕ → ℤ) (envs : List Env) (fs : FS)
    (segment_duration : ℚ) (language : Option String) :
    Except PyExc (FS × List OutEvent) :=
  match continuous_body mic segment_duration language envs fs with
  | (fs1, evs, .keyboardInterrupt) =>
    .ok (fs1, .continuousStart :: evs ++ [.continuousStop])
  | (_, _, .err m) => .error (.err m)

/-- Leading and trailing whitespace stripped from a character list. -/
def stripWS (l : List Char) : List Char :=
  ((l.dropWhile Char.isWhitespace).reverse.dropWhile Char.isWhitespace).reverse

/-- Value of a nonempty run of decimal digits, `none` otherwise. -/
def decDigitsAux : List Char → ℕ → Option ℕ
  | [], acc => some acc
  | c :: cs, acc =>
    if c.isDigit then decDigitsAux cs (acc * 10 + (c.toNat - 48)) else none

def decDigits : List Char → Option ℕ
  | [] => none
  | l => decDigitsAux l 0

/-- Python `int(s)` on a user entry, as an optional value: leading/trailing
whitespace is tolerated and an optional sign precedes a nonempty digit run,
as in CPython; `none` models the `ValueError` that `int` raises on anything
else. -/
def pyIntParse (s : String) : Option ℤ :=
  match stripWS s.data with
  | '+' :: rest => (decDigits rest).map fun n => (n : ℤ)
  | '-' :: rest => (decDigits rest).map fun n => -(n : ℤ)
  | l => (decDigits l).map fun n => (n : ℤ)

/-- Session-loop state: inside the `while True:` menu loop, or exited via
`break` (choice 4). -/
inductive SState where
  | menu
  | exited
deriving Repr, DecidableEq

/-- One pass of `main`'s menu loop: the inputs read from stdin during that
pass.  `duration_input`, `path_input` and `language_input` are the answers to
the follow-up prompts of choices 1, 2 and 3 respectively. -/
structure MenuIn where
  choice : String
  duration_input : String
  path_input : String
  language_input : String

/-- Outcome of one pass of `main`'s loop when no exception escapes it. -/
structure StepOut where
  state : SState
  fs : FS
  events : List OutEvent

/-- One iteration of the `while True:` loop of `main`.  `env` is the library
environment for the (at most one) direct `transcribe_audio`/`save_audio` call
of this pass; `contEnvs` is the per-iteration environment list for choice 3.
`main` has no `try/except`, so `int(input(...))` raising `ValueError` on a
malformed duration, or `sf.write` failing in `save_audio`, escapes the loop
as `.error` and kills the process. -/
def main_step (env : Env) (contEnvs : List Env) (mic : ℕ → ℤ) (fs : FS)
    (inp : MenuIn) : Except PyExc StepOut :=
  if inp.choice = "1" then
    match pyIntParse inp.duration_input with
    | none => .error (.err ("invalid literal for int() with base 10: " ++
        inp.duration_input))
    | some d =>
      let audio_data := record_audio mic (d : ℚ)
      match save_audio env fs audio_data none with
      | .error e => .error (.err e)
      | .ok (fs1, filename) =>
        let out := transcribe_audio env fs1 (some audio_data) none none
        .ok ⟨.menu, out.fs,
          [.recordingStart (d : ℚ), .recordingDone, .savedRecording filename] ++
            printResultFull out.ret⟩
  else if inp.choice = "2" then
    if inp.path_input ∈ fs.files then
      let out := transcribe_audio env fs none (some inp.path_input) none
      .ok ⟨.menu, out.fs, printResultFull out.ret⟩
    else
      .ok ⟨.menu, fs, [.fileNotFound]⟩
  else if inp.choice = "3" then
    let language :=
      if inp.language_input.trim = "" then none else some inp.language_input.trim
    match start_continuous_recognition mic contEnvs fs 5 language with
    | .ok (fs1, evs) => .ok ⟨.menu, fs1, evs⟩
    | .error e => .error e
  else if inp.choice = "4" then
    .ok ⟨.exited, fs, [.exiting]⟩
  else
    .ok ⟨.menu, fs, [.invalidChoice]⟩

/-- The keys of a dictionary value, in insertion order (`[]` otherwise). -/
def dictKeys : PyVal → List String
  | .dict kvs => kvs.map Prod.fst
  | _ => []

/-- A word entry as the source builds it: keys `word`, `start`, `end`. -/
def wordShapeOK (v : PyVal) : Bool :=
  dictKeys v == ["word", "start", "end"]

/-- A segment entry as the source builds it: keys `text`, `start`, `end`,
`words`, the last holding a list of word entries. -/
def segShapeOK (v : PyVal) : Bool :=
  dictKeys v == ["text", "start", "end", "words"] &&
    (asList (dGet v "words")).all wordShapeOK

/-- The success-dictionary shape: keys `segments`, `detected_language`,
`language_probability`, with `segments` a list of segment entries. -/
def resultShapeOK (v : PyVal) : Bool :=
  dictKeys v == ["segments", "detected_language", "language_probability"] &&
    (asList (dGet v "segments")).all segShapeOK

/-- Modelled from the spec: the `Word` record of the spec data model has
fields `text`, `start`, `end` (spec-side definition, for comparison with the
keys the source actually writes). -/
def specWordKeys : List String := ["text", "start", "end"]

/-- The first word entry of the first segment of a result value, if any. -/
def firstWord (v : PyVal) : Option PyVal :=
  match asList (dGet v "segments") with
  | s :: _ =>
    match asList (dGet s "words") with
    | w :: _ => some w
    | [] => none
  | [] => none

/-- Number of recording starts in an event trace: one per iteration of the
continuous loop (and one for the interrupted, unfinished record call is not
counted — the interrupt arrives during that call, so its start marker is
excluded here by counting only starts followed by a completed recording). -/
def countIterations (evs : List OutEvent) : ℕ :=
  evs.countP fun e =>
    match e with
    | .recordingDone => true
    | _ => false

/-- A microphone that always reads zero. -/
def mic0 : ℕ → ℤ := fun _ => 0

/-- A concrete benign environment: writes succeed, the model returns no
segments, language `en` with probability 1. -/
def env0 : Env :=
  ⟨"tmp_0001.wav", fun _ _ => .ok (),
   fun _ => .ok ([], ⟨"en", 1⟩), "20240101_120000"⟩

/-- A concrete environment whose model yields one segment containing one
word. -/
def envW : Env :=
  ⟨"tmp_0002.wav", fun _ _ => .ok (),
   fun _ => .ok ([⟨"hello", 0, 1, [⟨"hello", 0, 1⟩]⟩], ⟨"en", 95/100⟩),
   "20240101_120001"⟩

/-! ## Helper lemmas -/

/-- Lemma: `runModel` returns either the stringified error or the success dictionary
built from what the model produced. -/
theorem runModel_ret (env : Env) (fs : FS) (audio_path : Option String)
    (language : Option String) (tempCreated : Option String) :
    (∃ e, (runModel env fs audio_path language tempCreated).ret = errValue e) ∨
    (∃ segs info,
      (runModel env fs audio_path language tempCreated).ret
        = successDict segs info) :=
  match h : env.model ⟨audio_path, language, 5, true, true⟩ with
  | .error e => .inl ⟨e, by simp [runModel, h]⟩
  | .ok (segs, info) => .inr ⟨segs, info, by simp [runModel, h]⟩

/-- Case analysis on the value returned by `transcribe_audio`: the error
string or the success dictionary, whatever the environment does. -/
theorem transcribe_ret_cases (env : Env) (fs : FS)
    (audio_data : Option AudioBuffer) (audio_file : Option String)
    (language : Option String) :
    (∃ e, (transcribe_audio env fs audio_data audio_file language).ret
        = errValue e) ∨
    (∃ segs info, (transcribe_audio env fs audio_data audio_file language).ret
        = successDict segs info) := by
  cases audio_data with
  | none =>
    simpa [transcribe_audio] using runModel_ret env fs audio_file language none
  | some buf =>
    cases h : env.sfWrite env.tempName buf with
    | error e => exact .inl ⟨e, by simp [transcribe_audio, save_audio, h]⟩
    | ok u =>
      simpa [transcribe_audio, save_audio, h] using
        runModel_ret env ⟨(fs.files ++ [env.tempName]) ++ [env.tempName]⟩
          (some env.tempName) language (some env.tempName)

/-! ## Claim theorems -/

/-- C1: any error during temp-file persistence, file access, or model
invocation inside `transcribe_audio` is caught and turned into the returned
error string; for every environment — including ones whose write or model
call raises — the function returns either the `"Transcription error: ..."`
string or the success dictionary, and never lets an exception escape (its
result type carries no exception).  The two outcomes are distinguishable:
one is a `PyVal.str`, the other a `PyVal.dict`. -/
theorem transcribe_audio_total_result (env : Env) (fs : FS)
    (audio_data : Option AudioBuffer) (audio_file : Option String)
    (language : Option String) :
    (∃ e, (transcribe_audio env fs audio_data audio_file language).ret
        = errValue e) ∨
    (∃ segs info, (transcribe_audio env fs audio_data audio_file language).ret
        = successDict segs info) :=
  transcribe_ret_cases env fs audio_data audio_file language

/-- C7: with an audio buffer, `transcribe_audio` creates the (unique)
temporary file named by `NamedTemporaryFile` and every model invocation
transcribes that file; with only a file path, no temporary file is created,
the filesystem is untouched, and the model transcribes the given path
directly. -/
theorem transcribe_temp_vs_path (env : Env) (fs : FS) (buf : AudioBuffer)
    (path : String) (language : Option String) :
    ((transcribe_audio env fs (some buf) none language).tempCreated
        = some env.tempName ∧
      ((transcribe_audio env fs (some buf) none language).calls.all
        fun c => c.audio == some env.tempName) = true) ∧
    ((transcribe_audio env fs none (some path) language).tempCreated = none ∧
      (transcribe_audio env fs none (some path) language).fs = fs ∧
      ((transcribe_audio env fs none (some path) language).calls.all
        fun c => c.audio == some path) = true) := by
  constructor
  · cases h : env.sfWrite env.tempName buf <;>
      cases h2 : env.model ⟨some env.tempName, language, 5, true, true⟩ <;>
      simp [transcribe_audio, save_audio, runModel, h, h2]
  · cases h2 : env.model ⟨some path, language, 5, true, true⟩ <;>
      simp [transcribe_audio, runModel, h2]

/-- C8: every `self.model.transcribe` invocation made by `transcribe_audio`
passes the caller's language hint (`none` meaning auto-detect), beam width 5,
VAD filtering enabled, and word-level timestamps enabled. -/
theorem transcribe_fixed_params (env : Env) (fs : FS)
    (audio_data : Option AudioBuffer) (audio_file : Option String)
    (language : Option String) :
    ((transcribe_audio env fs audio_data audio_file language).calls.all
      fun c => c.language == language && c.beam_size == 5 &&
        c.vad_filter && c.word_timestamps) = true := by
  cases audio_data with
  | none =>
    cases h2 : env.model ⟨audio_file, language, 5, true, true⟩ <;>
      simp [transcribe_audio, runModel, h2]
  | some buf =>
    cases h : env.sfWrite env.tempName buf <;>
      cases h2 : env.model ⟨some env.tempName, language, 5, true, true⟩ <;>
      simp [transcribe_audio, save_audio, runModel, h, h2]

/-- C9: after every buffer-based `transcribe_audio` call — the write or the
model call may succeed or raise — the temporary file it created still exists:
`NamedTemporaryFile` is opened with `delete=False` and no code path removes
the file. -/
theorem temp_file_persists (env : Env) (fs : FS) (buf : AudioBuffer)
    (audio_file : Option String) (language : Option String) :
    (transcribe_audio env fs (some buf) audio_file language).tempCreated
      = some env.tempName ∧
    env.tempName ∈
      (transcribe_audio env fs (some buf) audio_file language).fs.files := by
  cases h : env.sfWrite env.tempName buf <;>
    cases h2 : env.model ⟨some env.tempName, language, 5, true, true⟩ <;>
    simp [transcribe_audio, save_audio, runModel, h, h2]

/-- C10: when both an audio buffer and a file path are supplied, the buffer
wins: the call behaves exactly as if no file path had been passed — the
buffer goes to the temporary file, which is what gets transcribed — so the
supplied path is ignored entirely. -/
theorem buffer_precedence (env : Env) (fs : FS) (buf : AudioBuffer)
    (path : String) (language : Option String) :
    transcribe_audio env fs (some buf) (some path) language
      = transcribe_audio env fs (some buf) none language ∧
    (transcribe_audio env fs (some buf) (some path) language).tempCreated
      = some env.tempName := by
  refine ⟨rfl, ?_⟩
  cases h : env.sfWrite env.tempName buf <;>
    cases h2 : env.model ⟨some env.tempName, language, 5, true, true⟩ <;>
    simp [transcribe_audio, save_audio, runModel, h, h2]

/-- C2 (counterexample): the claim "record_audio(d) returns exactly d * 16000
samples for every positive d, including non-integer d" fails at d = 1/32000:
`sd.rec(int(duration * 16000))` truncates `0.5` to `0`, so zero samples are
requested, not half a sample. -/
theorem record_audio_exact_claim_false :
    ¬ ((((record_audio mic0 (1/32000)).samples.length : ℚ))
      = (1/32000) * 16000) := by
  have h1 : (record_audio mic0 (1/32000)).samples.length = 0 := by
    have hq : ((1:ℚ)/32000) * (sample_rate : ℚ) = 1/2 := by
      norm_num [sample_rate]
    have hfl : ⌊((1:ℚ)/2)⌋ = 0 := by
      rw [Int.floor_eq_iff]
      norm_num
    simp only [record_audio, pyInt, List.length_map, List.length_range]
    rw [hq, if_pos (by norm_num : (0:ℚ) ≤ 1/2), hfl]
    rfl
  rw [h1]
  norm_num

/-- C2 (amended): for every positive duration `d`, `record_audio` requests and
returns exactly `int(d * 16000) = ⌊d * 16000⌋` mono samples at the 16000 Hz
sample rate; this equals `d * 16000` exactly when `d * 16000` is an integer,
in particular for every positive integer duration. -/
theorem record_audio_floor_samples (mic : ℕ → ℤ) (d : ℚ) (h : 0 < d) :
    (record_audio mic d).samples.length = (⌊d * 16000⌋).toNat := by
  have hsr : (0:ℚ) ≤ (sample_rate : ℚ) := by positivity
  have hpos : 0 ≤ d * (sample_rate : ℚ) := mul_nonneg h.le hsr
  have h16 : (sample_rate : ℚ) = 16000 := by norm_num [sample_rate]
  simp [record_audio, pyInt, hpos, h16, h.le]

theorem record_audio_floor_samples_witness :
    (0:ℚ) < 3 ∧
      (record_audio mic0 3).samples.length = (⌊(3:ℚ) * 16000⌋).toNat :=
  ⟨by norm_num, record_audio_floor_samples mic0 3 (by norm_num)⟩

/-- C5 (counterexample): a successful `transcribe_audio` result whose first
word entry has keys `word`, `start`, `end` — not the `text`, `start`, `end`
claimed for the Word record: the source writes `{'word': word.word, ...}`. -/
theorem word_key_is_word_not_text :
    firstWord ((transcribe_audio envW ⟨[]⟩ none (some "a.wav") none).ret)
        = some (PyVal.dict
            [("word", PyVal.str "hello"), ("start", PyVal.rat 0),
             ("end", PyVal.rat 1)]) ∧
    dictKeys (PyVal.dict
        [("word", PyVal.str "hello"), ("start", PyVal.rat 0),
         ("end", PyVal.rat 1)]) ≠ specWordKeys := by
  exact ⟨rfl, by decide⟩

theorem wordShapeOK_wordDict (w : MWord) : wordShapeOK (wordDict w) = true :=
  rfl

theorem all_wordShapeOK (ws : List MWord) :
    (ws.map wordDict).all wordShapeOK = true := by
  induction ws with
  | nil => rfl
  | cons w rest ih => simp [List.all_cons, ih, wordShapeOK_wordDict w]

theorem segShapeOK_segDict (s : MSeg) : segShapeOK (segDict s) = true := by
  show (dictKeys (segDict s) == ["text", "start", "end", "words"] &&
    (asList (dGet (segDict s) "words")).all wordShapeOK) = true
  rw [show asList (dGet (segDict s) "words") = s.words.map wordDict from rfl,
    all_wordShapeOK]
  rfl

theorem all_segShapeOK (segs : List MSeg) :
    (segs.map segDict).all segShapeOK = true := by
  induction segs with
  | nil => rfl
  | cons s rest ih => simp [List.all_cons, ih, segShapeOK_segDict s]

theorem resultShapeOK_successDict (segs : List MSeg) (info : MInfo) :
    resultShapeOK (successDict segs info) = true := by
  show (dictKeys (successDict segs info) ==
      ["segments", "detected_language", "language_probability"] &&
    (asList (dGet (successDict segs info) "segments")).all segShapeOK) = true
  rw [show asList (dGet (successDict segs info) "segments")
      = segs.map segDict from rfl, all_segShapeOK]
  rfl

/-- C5 (amended): every successful `transcribe_audio` result is the success
dictionary with keys `segments` (the model's segments in source order),
`detected_language` and `language_probability`, where every segment entry has
keys `text`, `start`, `end`, `words` and every word entry has keys `word`,
`start`, `end` (the word-text key is `word`, not `text`). -/
theorem transcribe_success_shape (env : Env) (fs : FS)
    (audio_data : Option AudioBuffer) (audio_file : Option String)
    (language : Option String) :
    (∃ e, (transcribe_audio env fs audio_data audio_file language).ret
        = errValue e) ∨
    (∃ segs info,
      (transcribe_audio env fs audio_data audio_file language).ret
          = successDict segs info ∧
        resultShapeOK (successDict segs info) = true) := by
  rcases transcribe_ret_cases env fs audio_data audio_file language with
    h | ⟨segs, info, h⟩
  · exact .inl h
  · exact .inr ⟨segs, info, h, resultShapeOK_successDict segs info⟩

/-- C6: on any menu entry other than `"1"`, `"2"`, `"3"`, `"4"`, one pass of
`main`'s loop prints the invalid-choice message, stays in the menu state,
leaves the filesystem untouched, and raises nothing. -/
theorem invalid_choice_keeps_menu (env : Env) (contEnvs : List Env)
    (mic : ℕ → ℤ) (fs : FS) (inp : MenuIn)
    (h1 : inp.choice ≠ "1") (h2 : inp.choice ≠ "2")
    (h3 : inp.choice ≠ "3") (h4 : inp.choice ≠ "4") :
    main_step env contEnvs mic fs inp
      = .ok ⟨SState.menu, fs, [OutEvent.invalidChoice]⟩ := by
  simp [main_step, h1, h2, h3, h4]

theorem invalid_choice_keeps_menu_witness :
    (MenuIn.mk "9" "" "" "").choice ≠ "1" ∧
    main_step env0 [] mic0 ⟨[]⟩ ⟨"9", "", "", ""⟩
      = .ok ⟨SState.menu, ⟨[]⟩, [OutEvent.invalidChoice]⟩ :=
  ⟨by decide,
    invalid_choice_keeps_menu env0 [] mic0 ⟨[]⟩ ⟨"9", "", "", ""⟩
      (by decide) (by decide) (by decide) (by decide)⟩

/-- C3 (counterexample): at the duration prompt of menu choice 1, the
non-numeric entry `"abc"` makes `int(input(...))` raise `ValueError`; `main`
has no handler, so the exception escapes the loop and the process dies —
the loop does not report the error and continue as claimed. -/
theorem bad_duration_crashes :
    main_step env0 [] mic0 ⟨[]⟩ ⟨"1", "abc", "", ""⟩
      = .error (.err ("invalid literal for int() with base 10: " ++ "abc")) ∧
    (main_step env0 [] mic0 ⟨[]⟩ ⟨"1", "abc", "", ""⟩).isOk = false := by
  have hd : pyIntParse (MenuIn.mk "1" "abc" "" "").duration_input = none := by
    decide
  have h1 : main_step env0 [] mic0 ⟨[]⟩ ⟨"1", "abc", "", ""⟩
      = .error (.err ("invalid literal for int() with base 10: " ++ "abc")) := by
    simp [main_step, hd]
  exact ⟨h1, by rw [h1]; rfl⟩

/-- C3 (amended): a duration entry that is not a valid integer literal makes
the choice-1 branch of `main` raise `ValueError` out of the session loop —
nothing catches it, so the iteration ends in an escaped exception and the
process terminates instead of reporting and continuing. -/
theorem bad_duration_uncaught (env : Env) (contEnvs : List Env)
    (mic : ℕ → ℤ) (fs : FS) (inp : MenuIn) (hc : inp.choice = "1")
    (hd : pyIntParse inp.duration_input = none) :
    main_step env contEnvs mic fs inp
      = .error (.err ("invalid literal for int() with base 10: " ++
          inp.duration_input)) := by
  simp [main_step, hc, hd]

theorem bad_duration_uncaught_witness :
    (MenuIn.mk "1" "abc" "" "").choice = "1" ∧
    pyIntParse (MenuIn.mk "1" "abc" "" "").duration_input = none ∧
    main_step env0 [] mic0 ⟨[]⟩ ⟨"1", "abc", "", ""⟩
      = .error (.err ("invalid literal for int() with base 10: " ++ "abc")) :=
  ⟨rfl, by decide,
    bad_duration_uncaught env0 [] mic0 ⟨[]⟩ ⟨"1", "abc", "", ""⟩ rfl (by decide)⟩

theorem countIterations_printResultCont (v : PyVal) :
    countIterations (printResultCont v) = 0 := by
  cases v with
  | dict kvs =>
    simp only [printResultCont, segLineEvents, countIterations]
    rw [List.countP_eq_zero]
    intro e he
    rcases List.mem_map.mp he with ⟨s, hs, rfl⟩
    simp
  | str s => rfl
  | rat q => rfl
  | list xs => rfl

/-- The `while True:` body of the continuous loop always ends in the
`KeyboardInterrupt` (its only exit), having completed one recording per
scheduled iteration. -/
theorem continuous_body_spec (mic : ℕ → ℤ) (d : ℚ) (lang : Option String) :
    ∀ (envs : List Env) (fs : FS),
      (continuous_body mic d lang envs fs).2.2 = PyExc.keyboardInterrupt ∧
      countIterations (continuous_body mic d lang envs fs).2.1
        = envs.length := by
  intro envs
  induction envs with
  | nil => intro fs; exact ⟨rfl, rfl⟩
  | cons e rest ih =>
    intro fs
    obtain ⟨ih1, ih2⟩ := ih
      (transcribe_audio e fs (some (record_audio mic d)) none lang).fs
    refine ⟨by simpa [continuous_body] using ih1, ?_⟩
    simp only [continuous_body, countIterations] at ih2 ⊢
    rw [List.countP_append, List.countP_append]
    have h0 : countIterations (printResultCont
        (transcribe_audio e fs (some (record_audio mic d)) none lang).ret)
        = 0 := countIterations_printResultCont _
    simp only [countIterations] at h0
    simp [h0, ih2]
    omega

/-- Lemma: `start_continuous_recognition` returns normally (the interrupt is caught
by its `except KeyboardInterrupt`), having run one record/transcribe/print
round per scheduled iteration. -/
theorem start_continuous_ok (mic : ℕ → ℤ) (envs : List Env) (fs : FS)
    (d : ℚ) (lang : Option String) :
    ∃ fs1 evs,
      start_continuous_recognition mic envs fs d lang = .ok (fs1, evs) ∧
      countIterations evs = envs.length := by
  obtain ⟨h1, h2⟩ := continuous_body_spec mic d lang envs fs
  unfold start_continuous_recognition
  rcases hb : continuous_body mic d lang envs fs with ⟨fs1, evs, exc⟩
  rw [hb] at h1 h2
  dsimp at h1 h2
  subst h1
  refine ⟨fs1, .continuousStart :: evs ++ [.continuousStop], rfl, ?_⟩
  simpa [countIterations, List.countP_append] using h2

/-- C4: in continuous mode the loop performs one
record-then-transcribe-then-print round per iteration for as long as the
interrupt schedule allows (the schedule length is arbitrary, so the loop runs
indefinitely absent an interrupt), and when the `KeyboardInterrupt` arrives
it is caught and one pass of `main`'s loop on choice 3 ends back in the menu
state with no escaped exception. -/
theorem continuous_interrupt_returns_menu (env : Env) (contEnvs : List Env)
    (mic : ℕ → ℤ) (fs : FS) (inp : MenuIn) (hc : inp.choice = "3") :
    ∃ fs1 evs,
      main_step env contEnvs mic fs inp = .ok ⟨SState.menu, fs1, evs⟩ ∧
      countIterations evs = contEnvs.length := by
  obtain ⟨fs1, evs, hok, hcount⟩ := start_continuous_ok mic contEnvs fs 5
    (if inp.language_input.trim = "" then none else some inp.language_input.trim)
  refine ⟨fs1, evs, ?_, hcount⟩
  simp [main_step, hc, hok]

theorem continuous_interrupt_returns_menu_witness :
    (MenuIn.mk "3" "" "" "").choice = "3" ∧
    ∃ fs1 evs,
      main_step env0 [env0, envW] mic0 ⟨[]⟩ ⟨"3", "", "", ""⟩
        = .ok ⟨SState.menu, fs1, evs⟩ ∧
      countIterations evs = 2 := by
  refine ⟨rfl, ?_⟩
  have h := continuous_interrupt_returns_menu env0 [env0, envW] mic0 ⟨[]⟩
    ⟨"3", "", "", ""⟩ rfl
  simpa using h

end SpeechToText
